import Mathlib

/-!
Shallow embedding of the voice-capture-to-chat pipeline of the
Calendar-Agent mobile client (src/mobile/CalendarAgentMobile/App.tsx).

React component state is modelled as an explicit `AppState` record; each
handler of the component becomes a pure function from the environment's
responses (a "world" record: clock readings, backend results, thrown
exceptions) and the current state to the next state together with a trace
of externally visible effects (platform calls, alerts, HTTP posts).
-/

namespace CalendarAgent

/-- JavaScript `String.prototype.trim` on the character list: drop
whitespace from the front, then from the back. -/
def trimChars (l : List Char) : List Char :=
  List.rdropWhile Char.isWhitespace (List.dropWhile Char.isWhitespace l)

/-- JS `text.trim()` as used by the component. -/
def jsTrim (s : String) : String :=
  ⟨trimChars s.data⟩

/-- `sender` field of a chat `Message` ('user' | 'assistant'). -/
inductive Sender where
  | user
  | assistant
deriving DecidableEq, Repr

/-- The `Message` interface of App.tsx: id, text, sender, timestamp. -/
structure Message where
  id : String
  text : String
  sender : Sender
  timestamp : Nat
deriving DecidableEq, Repr

/-- The component state hooks of `App`: `messages`, `inputText`,
`isLoading`, `isRecording`, `recording` (the `Audio.Recording` handle,
modelled as an opaque numeric id), `recordingUri`, `recordingStartTime`. -/
structure AppState where
  messages : List Message
  inputText : String
  isLoading : Bool
  isRecording : Bool
  recording : Option Nat
  recordingUri : Option String
  recordingStartTime : Option Nat
deriving DecidableEq, Repr

/-- Externally visible effects of the handlers: platform audio calls,
alerts (identified by their title), and HTTP posts. -/
inductive Effect where
  | requestPermissions
  | setAudioMode (allowsRecording : Bool)
  | prepareAndStart (handle : Nat)
  | stopAndUnload (handle : Nat)
  | alert (title : String)
  | processRecording (uri : String)
  | chatPost (text : String)
  | transcribePost (uri : String)
  | playSound (uri : String)
deriving DecidableEq, Repr

/-- Result of an awaited backend call that can throw. -/
inductive Threw (α : Type) where
  | ok (a : α)
  | thrown
deriving DecidableEq, Repr

/-- `recording.getStatusAsync()` result (only the `isRecording` field is
consulted by the code). -/
structure RecStatus where
  isRecording : Bool
deriving DecidableEq, Repr

/-- `FileSystem.getInfoAsync` result: existence and optional size. -/
structure FileInfo where
  fileExists : Bool
  size : Option Nat
deriving DecidableEq, Repr

/-- Environment responses consumed by `stopVoiceRecording`:
`Date.now()`, the status query, whether `stopAndUnloadAsync` resolves,
the `getURI()` result, the file-info query, whether `setAudioModeAsync`
resolves, and whether a thrown error message contains
'no valid audio data'. -/
structure StopWorld where
  now : Nat
  statusResult : Threw RecStatus
  stopUnloadOk : Bool
  uri : Option String
  fileInfo : Threw FileInfo
  setModeOk : Bool
  errNoValidAudio : Bool
deriving DecidableEq, Repr

/-- The state reset performed in the catch blocks of the recording
handlers: `setIsRecording(false); setRecording(null);
setRecordingStartTime(null)`. -/
def resetRecordingState (s : AppState) : AppState :=
  { s with isRecording := false, recording := none, recordingStartTime := none }

/-- The alert chosen by the catch block of `stopVoiceRecording` from the
thrown error's message. -/
def stopErrorAlert (w : StopWorld) : Effect :=
  if w.errNoValidAudio then Effect.alert "Recording Too Short"
  else Effect.alert "Recording Error"

/-- `const recordingDuration = recordingStartTime ? Date.now() -
recordingStartTime : 0` (App.tsx line 195).  The JS condition tests the
number's truthiness, so a start time of 0 is falsy and yields duration
0, exactly like a null start time. -/
def recordingDuration (w : StopWorld) (s : AppState) : Nat :=
  match s.recordingStartTime with
  | some t => if t = 0 then 0 else w.now - t
  | none => 0

/-- `stopVoiceRecording` (App.tsx lines 184-280). Mirrors the source's
control flow: no-recording early return; minimum-duration guard; status
query; on active recording stop-and-unload, log-only file check, audio
mode reset, state updates, and forwarding of a truthy URI to
`processVoiceRecording` — the JS `if (uri)` treats both null and the
empty string as falsy and raises the Recording Error alert instead;
cleanup branch when not actively recording; the catch block resets
state and classifies the error message. -/
def stopVoiceRecording (w : StopWorld) (s : AppState) : AppState × List Effect :=
  match s.recording with
  | none => ({ s with isRecording := false }, [])
  | some h =>
    if recordingDuration w s < 1000 then
      (s, [Effect.alert "Recording Too Short"])
    else
      match w.statusResult with
      | Threw.thrown => (resetRecordingState s, [stopErrorAlert w])
      | Threw.ok status =>
        if status.isRecording then
          if w.stopUnloadOk then
            if w.setModeOk then
              let s1 : AppState :=
                { s with recordingUri := w.uri, recording := none,
                         isRecording := false, recordingStartTime := none }
              match w.uri with
              | some u =>
                if u = "" then
                  (s1, [Effect.stopAndUnload h, Effect.setAudioMode false,
                        Effect.alert "Recording Error"])
                else
                  (s1, [Effect.stopAndUnload h, Effect.setAudioMode false,
                        Effect.processRecording u])
              | none =>
                (s1, [Effect.stopAndUnload h, Effect.setAudioMode false,
                      Effect.alert "Recording Error"])
            else
              (resetRecordingState s,
               [Effect.stopAndUnload h, Effect.setAudioMode false, stopErrorAlert w])
          else
            (resetRecordingState s, [Effect.stopAndUnload h, stopErrorAlert w])
        else
          if w.stopUnloadOk then
            ({ s with recording := none, isRecording := false,
                      recordingStartTime := none },
             [Effect.stopAndUnload h, Effect.alert "Recording Error"])
          else
            (resetRecordingState s, [Effect.stopAndUnload h, stopErrorAlert w])

/-- Environment responses consumed by `startVoiceRecording`. -/
structure StartWorld where
  now : Nat
  permissionGranted : Bool
  setModeOk : Bool
  prepareOk : Bool
  fallbackOk : Bool
  newHandle : Nat
  fallbackHandle : Nat
deriving DecidableEq, Repr

/-- `startVoiceRecording` (App.tsx lines 111-182): already-in-progress
guard, permission request, recording audio mode, prepare/start with a
`createAsync` fallback, and the catch block resetting state. -/
def startVoiceRecording (w : StartWorld) (s : AppState) : AppState × List Effect :=
  if s.recording.isSome || s.isRecording then
    (s, [])
  else if !w.permissionGranted then
    (s, [Effect.requestPermissions, Effect.alert "Permission Denied"])
  else if !w.setModeOk then
    (resetRecordingState s,
     [Effect.requestPermissions, Effect.setAudioMode true, Effect.alert "Error"])
  else if w.prepareOk then
    ({ s with recording := some w.newHandle, isRecording := true,
              recordingStartTime := some w.now },
     [Effect.requestPermissions, Effect.setAudioMode true,
      Effect.prepareAndStart w.newHandle])
  else if w.fallbackOk then
    ({ s with recording := some w.fallbackHandle, isRecording := true,
              recordingStartTime := some w.now },
     [Effect.requestPermissions, Effect.setAudioMode true,
      Effect.prepareAndStart w.fallbackHandle])
  else
    (resetRecordingState s,
     [Effect.requestPermissions, Effect.setAudioMode true, Effect.alert "Error"])

set_option linter.unusedVariables false in
/-- `processVoiceRecording` (App.tsx lines 282-311): reads file info for
display and raises the post-recording choice alert; mutates no state. -/
def processVoiceRecording (uri : String) (s : AppState) : AppState × List Effect :=
  (s, [Effect.alert "Recording Complete"])

/-- Environment responses consumed by `playRecording`. -/
structure PlayWorld where
  loadOk : Bool
deriving DecidableEq, Repr

/-- `playRecording` (App.tsx lines 313-362): playback audio mode, sound
creation and the playing/error alert; mutates no state. -/
def playRecording (w : PlayWorld) (uri : String) (s : AppState) :
    AppState × List Effect :=
  if w.loadOk then
    (s, [Effect.setAudioMode false, Effect.playSound uri,
         Effect.alert "Playing Recording"])
  else
    (s, [Effect.setAudioMode false, Effect.alert "Playback Error"])

/-- Environment responses consumed by a `send`: the two `Date.now()`
readings and the `/chat` call's outcome (reply text or a throw). -/
structure SendWorld where
  now : Nat
  now2 : Nat
  chatReply : Threw String
deriving DecidableEq, Repr

/-- The fixed apology text appended on a chat transport failure. -/
def apologyText : String :=
  "Sorry, I encountered an error connecting to the server. Please try again."

/-- The text of the assistant message a send appends: the reply on
success, the fixed apology on failure. -/
def replyText (w : SendWorld) : String :=
  match w.chatReply with
  | Threw.ok r => r
  | Threw.thrown => apologyText

/-- The extra effects of `sendMessage` after the chat post: the
Connection Error alert appears exactly on failure. -/
def sendTailEffects (w : SendWorld) : List Effect :=
  match w.chatReply with
  | Threw.ok _ => []
  | Threw.thrown => [Effect.alert "Connection Error"]

/-- `sendMessageWithText` (App.tsx lines 426-465): empty-after-trim
guard, optimistic user message append, input clear, `/chat` post, and
either the assistant reply or the apology message.  It performs no
`isLoading` check and never touches `isLoading`. -/
def sendMessageWithText (w : SendWorld) (text : String) (s : AppState) :
    AppState × List Effect :=
  if jsTrim text = "" then (s, [])
  else
    let userMessage : Message :=
      { id := toString w.now, text := jsTrim text, sender := Sender.user,
        timestamp := w.now }
    let s1 : AppState :=
      { s with messages := s.messages ++ [userMessage], inputText := "" }
    match w.chatReply with
    | Threw.ok reply =>
      let assistantMessage : Message :=
        { id := toString (w.now2 + 1), text := reply, sender := Sender.assistant,
          timestamp := w.now2 }
      ({ s1 with messages := s1.messages ++ [assistantMessage] },
       [Effect.chatPost userMessage.text])
    | Threw.thrown =>
      let errorMessage : Message :=
        { id := toString (w.now2 + 1), text := apologyText,
          sender := Sender.assistant, timestamp := w.now2 }
      ({ s1 with messages := s1.messages ++ [errorMessage] },
       [Effect.chatPost userMessage.text])

/-- `sendMessage` (App.tsx lines 476-531): rejects when the trimmed input
is empty or `isLoading` is set; appends the user message, clears input,
sets `isLoading`; posts to `/chat`; on success appends the reply, on
failure raises the Connection Error alert and appends the apology; the
`finally` clause clears `isLoading` in both cases. -/
def sendMessage (w : SendWorld) (s : AppState) : AppState × List Effect :=
  if jsTrim s.inputText = "" || s.isLoading then (s, [])
  else
    let userMessage : Message :=
      { id := toString w.now, text := jsTrim s.inputText, sender := Sender.user,
        timestamp := w.now }
    let s1 : AppState :=
      { s with messages := s.messages ++ [userMessage], inputText := "",
               isLoading := true }
    match w.chatReply with
    | Threw.ok reply =>
      let assistantMessage : Message :=
        { id := toString (w.now2 + 1), text := reply, sender := Sender.assistant,
          timestamp := w.now2 }
      ({ s1 with messages := s1.messages ++ [assistantMessage],
                 isLoading := false },
       [Effect.chatPost userMessage.text])
    | Threw.thrown =>
      let errorMessage : Message :=
        { id := toString (w.now2 + 1), text := apologyText,
          sender := Sender.assistant, timestamp := w.now2 }
      ({ s1 with messages := s1.messages ++ [errorMessage], isLoading := false },
       [Effect.chatPost userMessage.text, Effect.alert "Connection Error"])

/-- Outcome of the `/speech-to-text` post: a resolved response whose
`data.text` field is absent or a string, a timeout (`ECONNABORTED`),
an HTTP 404 rejection, or any other failure. -/
inductive TranscribeOutcome where
  | success (text : Option String)
  | timeout
  | http404
  | otherError
deriving DecidableEq, Repr

/-- Environment responses consumed by `convertSpeechToText`. -/
structure TranscribeWorld where
  outcome : TranscribeOutcome
deriving DecidableEq, Repr

/-- `convertSpeechToText` (App.tsx lines 364-423): sets `isLoading`,
posts the audio; on a response with truthy `data.text` trims it, sets it
as input, raises the converted alert, clears `isLoading` (the `finally`
clause), then the scheduled timeout forwards a non-empty trimmed text to
`sendMessageWithText`; a falsy `data.text`, a timeout, a 404 and any
other error each raise their classified alert with `isLoading` cleared. -/
def convertSpeechToText (w : TranscribeWorld) (sw : SendWorld) (uri : String)
    (s : AppState) : AppState × List Effect :=
  let s0 : AppState := { s with isLoading := true }
  match w.outcome with
  | TranscribeOutcome.success respText =>
    match respText with
    | some t =>
      if t = "" then
        ({ s0 with isLoading := false },
         [Effect.transcribePost uri, Effect.alert "Conversion Error"])
      else
        let transcribedText := jsTrim t
        let s1 : AppState := { s0 with inputText := transcribedText }
        let s2 : AppState := { s1 with isLoading := false }
        if transcribedText = "" then
          (s2, [Effect.transcribePost uri, Effect.alert "Speech Converted"])
        else
          let r := sendMessageWithText sw transcribedText s2
          (r.1, [Effect.transcribePost uri, Effect.alert "Speech Converted"] ++ r.2)
    | none =>
      ({ s0 with isLoading := false },
       [Effect.transcribePost uri, Effect.alert "Conversion Error"])
  | TranscribeOutcome.timeout =>
    ({ s0 with isLoading := false },
     [Effect.transcribePost uri, Effect.alert "Timeout Error"])
  | TranscribeOutcome.http404 =>
    ({ s0 with isLoading := false },
     [Effect.transcribePost uri, Effect.alert "Backend Error"])
  | TranscribeOutcome.otherError =>
    ({ s0 with isLoading := false },
     [Effect.transcribePost uri, Effect.alert "Conversion Error"])

/-- The cancel button of the recording UI (App.tsx lines 619-624):
`onPress={() => setIsRecording(false)}` — it only clears the flag. -/
def cancelRecordingUI (s : AppState) : AppState × List Effect :=
  ({ s with isRecording := false }, [])

/-- `toggleVoiceRecording` (App.tsx lines 467-473). -/
def toggleVoiceRecording (sw : StartWorld) (tw : StopWorld) (s : AppState) :
    AppState × List Effect :=
  if s.isRecording then stopVoiceRecording tw s else startVoiceRecording sw s

/-- The user-reachable entry points of the component, each carrying the
environment responses its handler consumes. -/
inductive UIEvent where
  | pressMicOrStop (sw : StartWorld) (tw : StopWorld)
  | pressCancel
  | pressSend (w : SendWorld)
  | chooseTranscribe (w : TranscribeWorld) (sw : SendWorld) (uri : String)
  | choosePlay (w : PlayWorld) (uri : String)
deriving DecidableEq, Repr

/-- One UI event dispatched to its handler. -/
def uiStep : UIEvent → AppState → AppState × List Effect
  | UIEvent.pressMicOrStop sw tw, s => toggleVoiceRecording sw tw s
  | UIEvent.pressCancel, s => cancelRecordingUI s
  | UIEvent.pressSend w, s => sendMessage w s
  | UIEvent.chooseTranscribe w sw uri, s => convertSpeechToText w sw uri s
  | UIEvent.choosePlay w uri, s => playRecording w uri s

/-- Run a sequence of UI events, accumulating the effect trace. -/
def runUI : List UIEvent → AppState → AppState × List Effect
  | [], s => (s, [])
  | e :: es, s =>
    let r1 := uiStep e s
    let r2 := runUI es r1.1
    (r2.1, r1.2 ++ r2.2)

/-- The texts of the user-sent messages of a message list, in order. -/
def userTexts (l : List Message) : List String :=
  (l.filter (fun m => decide (m.sender = Sender.user))).map Message.text

/-- An idle state fixture: empty conversation, nothing recording. -/
def sIdle : AppState :=
  { messages := [], inputText := "", isLoading := false, isRecording := false,
    recording := none, recordingUri := none, recordingStartTime := none }

/-- A state in the middle of an active recording (handle 0, started at 0). -/
def sRec0 : AppState :=
  { messages := [], inputText := "", isLoading := false, isRecording := true,
    recording := some 0, recordingUri := none, recordingStartTime := some 0 }

/-- A state in the middle of an active recording whose nonzero (truthy)
start time is 1000, so a stop at time 5000 is 4000 ms in. -/
def sRec1 : AppState :=
  { messages := [], inputText := "", isLoading := false, isRecording := true,
    recording := some 0, recordingUri := none, recordingStartTime := some 1000 }

/-- A state with a send in flight (`isLoading` set) and nothing recording. -/
def sLoad : AppState :=
  { messages := [], inputText := "", isLoading := true, isRecording := false,
    recording := none, recordingUri := none, recordingStartTime := none }

/-- A stop environment observed 400 ms after the recording started. -/
def wTooShort : StopWorld :=
  { now := 400, statusResult := Threw.ok ⟨true⟩, stopUnloadOk := true,
    uri := some "file.m4a", fileInfo := Threw.ok ⟨true, some 500⟩,
    setModeOk := true, errNoValidAudio := false }

/-- A stop environment after 5 s in which every backend call succeeds but
the recorded file is only 500 bytes — under the 1 KB threshold. -/
def wSmallFile : StopWorld :=
  { now := 5000, statusResult := Threw.ok ⟨true⟩, stopUnloadOk := true,
    uri := some "file.m4a", fileInfo := Threw.ok ⟨true, some 500⟩,
    setModeOk := true, errNoValidAudio := false }

/-- A stop environment in which the status query throws. -/
def wStatusThrow : StopWorld :=
  { now := 5000, statusResult := Threw.thrown, stopUnloadOk := true,
    uri := some "file.m4a", fileInfo := Threw.ok ⟨true, some 5000⟩,
    setModeOk := true, errNoValidAudio := false }

/-- A send environment whose chat call succeeds with a fixed reply. -/
def wSendOk : SendWorld :=
  { now := 10, now2 := 11, chatReply := Threw.ok "Sure" }

/-- A send environment whose chat call fails. -/
def wSendErr : SendWorld :=
  { now := 10, now2 := 11, chatReply := Threw.thrown }

/-- A transcription environment returning text that needs trimming. -/
def wTrLunch : TranscribeWorld :=
  { outcome := TranscribeOutcome.success (some " schedule lunch ") }

/-- A start environment with permission granted and a working backend. -/
def wStartOk : StartWorld :=
  { now := 0, permissionGranted := true, setModeOk := true, prepareOk := true,
    fallbackOk := true, newHandle := 7, fallbackHandle := 8 }

/-- An idle state whose input box holds the typed text hello. -/
def sHello : AppState :=
  { messages := [], inputText := "hello", isLoading := false, isRecording := false,
    recording := none, recordingUri := none, recordingStartTime := none }

end CalendarAgent

namespace CalendarAgent

/-- If dropping a leading run of `p` leaves a list unchanged, it also
leaves the list's `rdropWhile p` unchanged (the surviving head, if any,
is the same element). -/
theorem dropWhile_rdropWhile_eq_self {α : Type} (p : α → Bool) (m : List α)
    (hm : List.dropWhile p m = m) :
    List.dropWhile p (List.rdropWhile p m) = List.rdropWhile p m := by
  cases m with
  | nil => simp [List.rdropWhile]
  | cons a m' =>
    have hpa : p a = false := by
      have hw : List.dropWhile p (a :: m') ≠ [] := by rw [hm]; simp
      have h0 := List.head_dropWhile_not p (a :: m') hw
      simpa [hm] using h0
    obtain ⟨r, hr⟩ := List.rdropWhile_prefix p (a :: m')
    cases ht : List.rdropWhile p (a :: m') with
    | nil => simp
    | cons b t' =>
      rw [ht] at hr
      have hb : b = a := by
        have hr' := hr
        simp only [List.cons_append, List.cons.injEq] at hr'
        exact hr'.1
      subst hb
      rw [List.dropWhile_cons, if_neg (by simp [hpa])]

/-- Trimming the character list twice equals trimming it once. -/
theorem trimChars_idem (l : List Char) : trimChars (trimChars l) = trimChars l := by
  unfold trimChars
  rw [dropWhile_rdropWhile_eq_self _ _ (List.dropWhile_idempotent _ _),
    List.rdropWhile_idempotent]

/-- JS `trim` is idempotent. -/
theorem jsTrim_idem (s : String) : jsTrim (jsTrim s) = jsTrim s := by
  show String.mk (trimChars (String.mk (trimChars s.data)).data) = _
  exact congrArg String.mk (trimChars_idem s.data)

/-- `userTexts` distributes over append. -/
theorem userTexts_append (l l' : List Message) :
    userTexts (l ++ l') = userTexts l ++ userTexts l' := by
  simp [userTexts]

/-- Appending one user message and one assistant message adds exactly the
user message's text to `userTexts`. -/
theorem userTexts_user_assistant (l : List Message) (u a : Message)
    (hu : u.sender = Sender.user) (ha : a.sender = Sender.assistant) :
    userTexts (l ++ [u, a]) = userTexts l ++ [u.text] := by
  simp [userTexts, hu, ha]

/-- Full behaviour of `sendMessageWithText` on a non-empty trimmed text:
the user message and then the reply or apology are appended, the input
is cleared, nothing else changes, and the only effect is the chat post. -/
theorem smwt_spec (w : SendWorld) (text : String) (s : AppState)
    (h : ¬ jsTrim text = "") :
    sendMessageWithText w text s =
      ({ s with
          messages := s.messages ++
            [⟨toString w.now, jsTrim text, Sender.user, w.now⟩,
             ⟨toString (w.now2 + 1), replyText w, Sender.assistant, w.now2⟩],
          inputText := "" },
       [Effect.chatPost (jsTrim text)]) := by
  unfold sendMessageWithText
  rw [if_neg h]
  cases hr : w.chatReply <;> simp [replyText, hr]

/-- `sendMessageWithText` on an empty trimmed text is a no-op. -/
theorem smwt_noop (w : SendWorld) (text : String) (s : AppState)
    (h : jsTrim text = "") :
    sendMessageWithText w text s = (s, []) := by
  unfold sendMessageWithText
  rw [if_pos h]

/-- `sendMessage` rejects when the trimmed input is empty or a send is
in flight. -/
theorem sendMessage_noop (w : SendWorld) (s : AppState)
    (h : jsTrim s.inputText = "" ∨ s.isLoading = true) :
    sendMessage w s = (s, []) := by
  unfold sendMessage
  rcases h with h | h <;> rw [if_pos (by simp [h])]

/-- Full behaviour of `sendMessage` when it is not rejected: the user
message and then the reply or apology are appended, the input is
cleared, `isLoading` ends false, the chat post happens and the
Connection Error alert is raised exactly on failure. -/
theorem sendMessage_spec (w : SendWorld) (s : AppState)
    (hin : ¬ jsTrim s.inputText = "") (hload : s.isLoading = false) :
    sendMessage w s =
      ({ s with
          messages := s.messages ++
            [⟨toString w.now, jsTrim s.inputText, Sender.user, w.now⟩,
             ⟨toString (w.now2 + 1), replyText w, Sender.assistant, w.now2⟩],
          inputText := "", isLoading := false },
       Effect.chatPost (jsTrim s.inputText) :: sendTailEffects w) := by
  unfold sendMessage
  rw [if_neg (by simp [hin, hload])]
  cases hr : w.chatReply <;> simp [replyText, sendTailEffects, hr]

/-- `sendMessageWithText` never touches the recording fields or
`isLoading`, and never emits a recording-lifecycle effect. -/
theorem smwt_frame (w : SendWorld) (text : String) (s : AppState) :
    (sendMessageWithText w text s).1.recording = s.recording ∧
    (sendMessageWithText w text s).1.isRecording = s.isRecording ∧
    (sendMessageWithText w text s).1.isLoading = s.isLoading ∧
    ∀ g : Nat, Effect.prepareAndStart g ∉ (sendMessageWithText w text s).2 ∧
      Effect.stopAndUnload g ∉ (sendMessageWithText w text s).2 := by
  by_cases h : jsTrim text = ""
  · rw [smwt_noop w text s h]; simp
  · rw [smwt_spec w text s h]; simp

/-- `sendMessage` never touches the recording fields and never emits a
recording-lifecycle effect. -/
theorem sendMessage_frame (w : SendWorld) (s : AppState) :
    (sendMessage w s).1.recording = s.recording ∧
    (sendMessage w s).1.isRecording = s.isRecording ∧
    ∀ g : Nat, Effect.prepareAndStart g ∉ (sendMessage w s).2 ∧
      Effect.stopAndUnload g ∉ (sendMessage w s).2 := by
  by_cases hin : jsTrim s.inputText = ""
  · rw [sendMessage_noop w s (Or.inl hin)]; simp
  · by_cases hload : s.isLoading
    · rw [sendMessage_noop w s (Or.inr hload)]; simp
    · rw [sendMessage_spec w s hin (by simpa using hload)]
      refine ⟨rfl, rfl, fun g => ⟨?_, ?_⟩⟩ <;>
        cases hr : w.chatReply <;> simp [sendTailEffects, hr]

/-- `convertSpeechToText` never touches the recording fields and never
emits a recording-lifecycle effect. -/
theorem convert_frame (w : TranscribeWorld) (sw : SendWorld) (uri : String)
    (s : AppState) :
    (convertSpeechToText w sw uri s).1.recording = s.recording ∧
    (convertSpeechToText w sw uri s).1.isRecording = s.isRecording ∧
    ∀ g : Nat, Effect.prepareAndStart g ∉ (convertSpeechToText w sw uri s).2 ∧
      Effect.stopAndUnload g ∉ (convertSpeechToText w sw uri s).2 := by
  unfold convertSpeechToText
  rcases w.outcome with t | _ | _ | _
  case success =>
    rcases t with _ | t
    · simp
    · dsimp only
      split
      · simp
      · split
        · simp
        · have hf := smwt_frame sw (jsTrim t)
            { s with inputText := jsTrim t, isLoading := false }
          refine ⟨hf.1, hf.2.1, fun g => ⟨?_, ?_⟩⟩ <;>
            simp [(hf.2.2.2 g).1, (hf.2.2.2 g).2]
  all_goals simp

/-- `playRecording` changes no state and never emits a
recording-lifecycle effect. -/
theorem play_frame (w : PlayWorld) (uri : String) (s : AppState) :
    (playRecording w uri s).1 = s ∧
    ∀ g : Nat, Effect.prepareAndStart g ∉ (playRecording w uri s).2 ∧
      Effect.stopAndUnload g ∉ (playRecording w uri s).2 := by
  unfold playRecording
  split <;> simp

/-- `startVoiceRecording` never touches the message list. -/
theorem start_messages (w : StartWorld) (s : AppState) :
    (startVoiceRecording w s).1.messages = s.messages := by
  unfold startVoiceRecording resetRecordingState
  repeat' split
  all_goals rfl

/-- `stopVoiceRecording` never touches the message list. -/
theorem stop_messages (w : StopWorld) (s : AppState) :
    (stopVoiceRecording w s).1.messages = s.messages := by
  unfold stopVoiceRecording resetRecordingState stopErrorAlert
  repeat' split
  all_goals rfl

/-- `startVoiceRecording` is rejected outright when a recording object
still exists. -/
theorem start_noop_of_some (w : StartWorld) (s : AppState)
    (h : s.recording.isSome = true) :
    startVoiceRecording w s = (s, []) := by
  unfold startVoiceRecording
  rw [if_pos (by simp [h])]

/-- `sendMessage` only ever appends to the message list. -/
theorem sendMessage_messages (w : SendWorld) (s : AppState) :
    ∃ suf, (sendMessage w s).1.messages = s.messages ++ suf := by
  by_cases hin : jsTrim s.inputText = ""
  · rw [sendMessage_noop w s (Or.inl hin)]
    exact ⟨[], by simp⟩
  · by_cases hload : s.isLoading
    · rw [sendMessage_noop w s (Or.inr hload)]
      exact ⟨[], by simp⟩
    · rw [sendMessage_spec w s hin (by simpa using hload)]
      exact ⟨_, rfl⟩

/-- `sendMessageWithText` only ever appends to the message list. -/
theorem smwt_messages (w : SendWorld) (text : String) (s : AppState) :
    ∃ suf, (sendMessageWithText w text s).1.messages = s.messages ++ suf := by
  by_cases h : jsTrim text = ""
  · rw [smwt_noop w text s h]
    exact ⟨[], by simp⟩
  · rw [smwt_spec w text s h]
    exact ⟨_, rfl⟩

/-- `convertSpeechToText` only ever appends to the message list. -/
theorem convert_messages (w : TranscribeWorld) (sw : SendWorld) (uri : String)
    (s : AppState) :
    ∃ suf, (convertSpeechToText w sw uri s).1.messages = s.messages ++ suf := by
  unfold convertSpeechToText
  rcases w.outcome with t | _ | _ | _
  case success =>
    rcases t with _ | t
    · exact ⟨[], by simp⟩
    · dsimp only
      split
      · exact ⟨[], by simp⟩
      · split
        · exact ⟨[], by simp⟩
        · obtain ⟨suf, hs⟩ :=
            smwt_messages sw (jsTrim t)
              { s with inputText := jsTrim t, isLoading := false }
          exact ⟨suf, hs⟩
  all_goals exact ⟨[], by simp⟩

/-- One UI event preserves the cancelled-while-recording configuration:
the stale handle is kept, `isRecording` stays false, and no recording is
started or released. -/
theorem uiStep_bricked (hnd : Nat) (e : UIEvent) (s : AppState)
    (h1 : s.recording = some hnd) (h2 : s.isRecording = false) :
    (uiStep e s).1.recording = some hnd ∧ (uiStep e s).1.isRecording = false ∧
    ∀ g : Nat, Effect.prepareAndStart g ∉ (uiStep e s).2 ∧
      Effect.stopAndUnload g ∉ (uiStep e s).2 := by
  cases e with
  | pressMicOrStop sw tw =>
    have hstep : uiStep (UIEvent.pressMicOrStop sw tw) s = (s, []) := by
      show toggleVoiceRecording sw tw s = (s, [])
      unfold toggleVoiceRecording
      rw [if_neg (by simp [h2])]
      exact start_noop_of_some sw s (by simp [h1])
    rw [hstep]
    exact ⟨h1, h2, by simp⟩
  | pressCancel =>
    exact ⟨h1, rfl, by simp [uiStep, cancelRecordingUI]⟩
  | pressSend w =>
    obtain ⟨f1, f2, f3⟩ := sendMessage_frame w s
    exact ⟨f1.trans h1, f2.trans h2, f3⟩
  | chooseTranscribe w sw uri =>
    obtain ⟨f1, f2, f3⟩ := convert_frame w sw uri s
    exact ⟨f1.trans h1, f2.trans h2, f3⟩
  | choosePlay w uri =>
    obtain ⟨p1, p2⟩ := play_frame w uri s
    exact ⟨by show (playRecording w uri s).1.recording = _; rw [p1]; exact h1,
      by show (playRecording w uri s).1.isRecording = _; rw [p1]; exact h2, p2⟩

/-- Any sequence of UI events preserves the cancelled-while-recording
configuration and never starts or releases a recording. -/
theorem runUI_bricked (hnd : Nat) (evs : List UIEvent) (s : AppState)
    (h1 : s.recording = some hnd) (h2 : s.isRecording = false) :
    (runUI evs s).1.recording = some hnd ∧ (runUI evs s).1.isRecording = false ∧
    ∀ g : Nat, Effect.prepareAndStart g ∉ (runUI evs s).2 ∧
      Effect.stopAndUnload g ∉ (runUI evs s).2 := by
  induction evs generalizing s with
  | nil => exact ⟨h1, h2, by simp [runUI]⟩
  | cons e es ih =>
    obtain ⟨a1, a2, a3⟩ := uiStep_bricked hnd e s h1 h2
    obtain ⟨b1, b2, b3⟩ := ih (uiStep e s).1 a1 a2
    refine ⟨b1, b2, fun g => ⟨?_, ?_⟩⟩
    · show Effect.prepareAndStart g ∉
        (uiStep e s).2 ++ (runUI es (uiStep e s).1).2
      simp only [List.mem_append, not_or]
      exact ⟨(a3 g).1, (b3 g).1⟩
    · show Effect.stopAndUnload g ∉
        (uiStep e s).2 ++ (runUI es (uiStep e s).1).2
      simp only [List.mem_append, not_or]
      exact ⟨(a3 g).2, (b3 g).2⟩

/-- Claim C1 fails on the code: stopping 4 s into a recording with
every backend call succeeding but a recorded file of only 500 bytes —
beneath the 1 KB minimum-content threshold — still hands the URI to
processing; the session does not end in a failed teardown. -/
theorem c1_counterexample :
    wSmallFile.fileInfo = Threw.ok ⟨true, some 500⟩ ∧
    ¬ (1000 : Nat) < 500 ∧
    stopVoiceRecording wSmallFile sRec1 =
      ({ sRec1 with
          recordingUri := some "file.m4a", recording := none,
          isRecording := false, recordingStartTime := none },
       [Effect.stopAndUnload 0, Effect.setAudioMode false,
        Effect.processRecording "file.m4a"]) := by
  refine ⟨rfl, by decide, ?_⟩
  decide

/-- Claim C1 amended: when the backend reports an active recording,
stop-and-unload plus the audio-mode reset succeed, and the URI is
truthy (non-null and non-empty), the URI is always forwarded to
processing — the file-existence/size check is log-only and the outcome
does not depend on the file info at all. -/
theorem c1_uri_forwarded_unconditionally (w : StopWorld) (s : AppState)
    (hnd : Nat) (u : String)
    (hrec : s.recording = some hnd) (hdur : ¬ recordingDuration w s < 1000)
    (hstatus : w.statusResult = Threw.ok ⟨true⟩)
    (hstop : w.stopUnloadOk = true) (hmode : w.setModeOk = true)
    (huri : w.uri = some u) (hu : ¬ u = "") :
    stopVoiceRecording w s =
      ({ s with
          recordingUri := some u, recording := none, isRecording := false,
          recordingStartTime := none },
       [Effect.stopAndUnload hnd, Effect.setAudioMode false,
        Effect.processRecording u]) := by
  unfold stopVoiceRecording
  simp only [hrec]
  rw [if_neg hdur, hstatus]
  simp [hstop, hmode, huri, hu]

/-- Witness for the amended C1 theorem at the small-file environment. -/
theorem c1_uri_forwarded_unconditionally_witness :
    stopVoiceRecording wSmallFile sRec1 =
      ({ sRec1 with
          recordingUri := some "file.m4a", recording := none,
          isRecording := false, recordingStartTime := none },
       [Effect.stopAndUnload 0, Effect.setAudioMode false,
        Effect.processRecording "file.m4a"]) :=
  c1_uri_forwarded_unconditionally wSmallFile sRec1 0 "file.m4a" rfl (by decide)
    rfl rfl rfl rfl (by decide)

/-- Claim C2 fails on the code: with a send already in flight
(`isLoading` true), the transcription-path send still appends a user
message — it is not a no-op. -/
theorem c2_counterexample :
    sLoad.isLoading = true ∧
    (sendMessageWithText wSendOk "hello" sLoad).1.messages ≠ sLoad.messages ∧
    userTexts (sendMessageWithText wSendOk "hello" sLoad).1.messages =
      userTexts sLoad.messages ++ ["hello"] := by
  decide

/-- Claim C2 amended: the typed-path `sendMessage` is a no-op while a
send is in flight, and no single invocation of either send path appends
more than one user message; but the transcription-path
`sendMessageWithText` performs no in-flight check. -/
theorem c2_single_flight_amended (w : SendWorld) (s : AppState) (text : String) :
    (s.isLoading = true → sendMessage w s = (s, [])) ∧
    (userTexts (sendMessageWithText w text s).1.messages).length ≤
      (userTexts s.messages).length + 1 ∧
    (userTexts (sendMessage w s).1.messages).length ≤
      (userTexts s.messages).length + 1 := by
  refine ⟨fun h => sendMessage_noop w s (Or.inr h), ?_, ?_⟩
  · by_cases h : jsTrim text = ""
    · rw [smwt_noop w text s h]
      exact Nat.le_succ _
    · rw [smwt_spec w text s h]
      dsimp only
      rw [userTexts_user_assistant _ _ _ rfl rfl]
      simp
  · by_cases hin : jsTrim s.inputText = ""
    · rw [sendMessage_noop w s (Or.inl hin)]
      exact Nat.le_succ _
    · by_cases hl : s.isLoading
      · rw [sendMessage_noop w s (Or.inr hl)]
        exact Nat.le_succ _
      · rw [sendMessage_spec w s hin (by simpa using hl)]
        dsimp only
        rw [userTexts_user_assistant _ _ _ rfl rfl]
        simp

/-- Witness for the amended C2 theorem: a concrete in-flight state. -/
theorem c2_single_flight_amended_witness :
    sendMessage wSendOk sLoad = (sLoad, []) ∧
    (userTexts (sendMessageWithText wSendOk "hi" sLoad).1.messages).length ≤
      (userTexts sLoad.messages).length + 1 :=
  ⟨(c2_single_flight_amended wSendOk sLoad "hi").1 rfl,
   (c2_single_flight_amended wSendOk sLoad "hi").2.1⟩

/-- Claim C3 fails on the code: when the status query throws during a
long-enough stop, the catch block only resets the state flags — the
recording handle is not stop-and-unloaded and the audio session is not
reset to idle mode. -/
theorem c3_counterexample :
    wStatusThrow.statusResult = Threw.thrown ∧
    (stopVoiceRecording wStatusThrow sRec1).2 = [Effect.alert "Recording Error"] ∧
    Effect.stopAndUnload 0 ∉ (stopVoiceRecording wStatusThrow sRec1).2 ∧
    Effect.setAudioMode false ∉ (stopVoiceRecording wStatusThrow sRec1).2 := by
  decide

/-- Claim C3 amended: every failure path of the stop handler resets the
state flags, but the backend-exception path performs neither
stop-and-unload nor the audio-mode reset, the not-actively-recording
path performs stop-and-unload without the audio-mode reset, and the
audio-mode reset call occurs only when the backend reported an active
recording and stop-and-unload succeeded. -/
theorem c3_stop_failure_teardown (w : StopWorld) (s : AppState) (hnd : Nat)
    (hrec : s.recording = some hnd) (hdur : ¬ recordingDuration w s < 1000) :
    (w.statusResult = Threw.thrown →
      stopVoiceRecording w s = (resetRecordingState s, [stopErrorAlert w])) ∧
    (w.statusResult = Threw.ok ⟨false⟩ → w.stopUnloadOk = true →
      stopVoiceRecording w s =
        ({ s with
            recording := none, isRecording := false, recordingStartTime := none },
         [Effect.stopAndUnload hnd, Effect.alert "Recording Error"])) ∧
    (Effect.setAudioMode false ∈ (stopVoiceRecording w s).2 →
      w.statusResult = Threw.ok ⟨true⟩ ∧ w.stopUnloadOk = true) := by
  obtain ⟨now, stat, su, uri, fi, smo, env⟩ := w
  unfold stopVoiceRecording
  simp only [hrec]
  rw [if_neg hdur]
  rcases stat with ⟨⟨b⟩⟩ | _
  · rcases b <;> rcases su <;> rcases smo <;> rcases env <;>
      rcases uri with _ | u <;> simp [stopErrorAlert, resetRecordingState]
  · rcases env <;> simp [stopErrorAlert, resetRecordingState]

/-- Witness for the amended C3 theorem at the throwing environment. -/
theorem c3_stop_failure_teardown_witness :
    stopVoiceRecording wStatusThrow sRec1 =
      (resetRecordingState sRec1, [stopErrorAlert wStatusThrow]) :=
  (c3_stop_failure_teardown wStatusThrow sRec1 0 rfl (by decide)).1 rfl

/-- Claim C4: a stop issued less than 1000 ms after the recording
started is rejected — the state (including the live recording object) is
unchanged, the Too Short alert is the only effect, and nothing is
forwarded to processing. -/
theorem c4_stop_rejected_too_short (w : StopWorld) (s : AppState) (hnd : Nat)
    (hrec : s.recording = some hnd) (hdur : recordingDuration w s < 1000) :
    stopVoiceRecording w s = (s, [Effect.alert "Recording Too Short"]) := by
  unfold stopVoiceRecording
  simp only [hrec]
  rw [if_pos hdur]

/-- Witness for the C4 theorem: a stop 400 ms into a recording. -/
theorem c4_stop_rejected_too_short_witness :
    stopVoiceRecording wTooShort sRec0 =
      (sRec0, [Effect.alert "Recording Too Short"]) :=
  c4_stop_rejected_too_short wTooShort sRec0 0 rfl (by decide)

/-- Claim C5: a start issued while a recording object exists or the
recording flag is set is a complete no-op — no state change, no
permission request, no new capture. -/
theorem c5_start_noop_when_active (w : StartWorld) (s : AppState)
    (h : s.recording.isSome = true ∨ s.isRecording = true) :
    startVoiceRecording w s = (s, []) := by
  unfold startVoiceRecording
  rcases h with h | h <;> rw [if_pos (by simp [h])]

/-- Witness for the C5 theorem: a start during an active recording. -/
theorem c5_start_noop_when_active_witness :
    startVoiceRecording wStartOk sRec0 = (sRec0, []) :=
  c5_start_noop_when_active wStartOk sRec0 (Or.inr rfl)

/-- Claim C6: a successful transcription whose text is non-empty after
trimming produces exactly one new user message carrying the trimmed
text, with the chat transport called on that text; a transcription empty
after trimming sends nothing. -/
theorem c6_transcription_chains (w : TranscribeWorld) (sw : SendWorld)
    (uri : String) (s : AppState) (t : String)
    (hout : w.outcome = TranscribeOutcome.success (some t)) :
    (¬ jsTrim t = "" →
      userTexts (convertSpeechToText w sw uri s).1.messages =
        userTexts s.messages ++ [jsTrim t] ∧
      Effect.chatPost (jsTrim t) ∈ (convertSpeechToText w sw uri s).2) ∧
    (jsTrim t = "" →
      (convertSpeechToText w sw uri s).1.messages = s.messages ∧
      ∀ x, Effect.chatPost x ∉ (convertSpeechToText w sw uri s).2) := by
  unfold convertSpeechToText
  rw [hout]
  dsimp only
  by_cases ht0 : t = ""
  · rw [if_pos ht0]
    subst ht0
    exact ⟨fun hne => absurd (by decide) hne, fun _ => ⟨rfl, fun x => by simp⟩⟩
  · rw [if_neg ht0]
    by_cases htr : jsTrim t = ""
    · rw [if_pos htr]
      exact ⟨fun hne => absurd htr hne, fun _ => ⟨rfl, fun x => by simp⟩⟩
    · rw [if_neg htr]
      have hsp := smwt_spec sw (jsTrim t)
        { s with inputText := jsTrim t, isLoading := false }
        (by rw [jsTrim_idem]; exact htr)
      refine ⟨fun _ => ⟨?_, ?_⟩, fun h => absurd h htr⟩
      · rw [hsp]
        dsimp only
        rw [userTexts_user_assistant _ _ _ rfl rfl]
        dsimp only
        rw [jsTrim_idem]
      · rw [hsp]
        simp [jsTrim_idem]

/-- Witness for the C6 theorem: transcribed text with surrounding
whitespace reaches dispatch as exactly one trimmed user message. -/
theorem c6_transcription_chains_witness :
    userTexts (convertSpeechToText wTrLunch wSendOk "rec.m4a" sIdle).1.messages =
      userTexts sIdle.messages ++ [jsTrim " schedule lunch "] ∧
    Effect.chatPost (jsTrim " schedule lunch ") ∈
      (convertSpeechToText wTrLunch wSendOk "rec.m4a" sIdle).2 :=
  (c6_transcription_chains wTrLunch wSendOk "rec.m4a" sIdle " schedule lunch "
    rfl).1 (by decide)

/-- Claim C7 fails on the code: a transcription-path send whose chat
call fails appends the user and apology messages, but raises no
connectivity alert (the only effect is the chat post) and does not clear
the in-flight flag. -/
theorem c7_counterexample :
    wSendErr.chatReply = Threw.thrown ∧
    userTexts (sendMessageWithText wSendErr "hello" sLoad).1.messages = ["hello"] ∧
    (sendMessageWithText wSendErr "hello" sLoad).2 = [Effect.chatPost "hello"] ∧
    (sendMessageWithText wSendErr "hello" sLoad).1.isLoading = true := by
  decide

/-- Claim C7 amended: on a transport failure the typed-path
`sendMessage` appends exactly the user message and the fixed apology,
raises the connectivity alert and clears `isLoading` (which is also
cleared on success); the transcription-path `sendMessageWithText`
appends the same two messages but raises no alert and leaves `isLoading`
untouched. -/
theorem c7_dispatch_failure_amended (w : SendWorld) (s s2 : AppState)
    (text : String) (hin : ¬ jsTrim s.inputText = "")
    (hload : s.isLoading = false) (herr : w.chatReply = Threw.thrown)
    (htext : ¬ jsTrim text = "") :
    sendMessage w s =
      ({ s with
          messages := s.messages ++
            [⟨toString w.now, jsTrim s.inputText, Sender.user, w.now⟩,
             ⟨toString (w.now2 + 1), apologyText, Sender.assistant, w.now2⟩],
          inputText := "", isLoading := false },
       [Effect.chatPost (jsTrim s.inputText), Effect.alert "Connection Error"]) ∧
    (∀ r : String,
      (sendMessage { w with chatReply := Threw.ok r } s).1.isLoading = false) ∧
    sendMessageWithText w text s2 =
      ({ s2 with
          messages := s2.messages ++
            [⟨toString w.now, jsTrim text, Sender.user, w.now⟩,
             ⟨toString (w.now2 + 1), apologyText, Sender.assistant, w.now2⟩],
          inputText := "" },
       [Effect.chatPost (jsTrim text)]) ∧
    (sendMessageWithText w text s2).1.isLoading = s2.isLoading := by
  refine ⟨?_, ?_, ?_, (smwt_frame w text s2).2.2.1⟩
  · rw [sendMessage_spec w s hin hload]
    simp [replyText, sendTailEffects, herr]
  · intro r
    rw [sendMessage_spec { w with chatReply := Threw.ok r } s hin hload]
  · rw [smwt_spec w text s2 htext]
    simp [replyText, herr]

/-- Witness for the amended C7 theorem: typed hello with a failing
transport raises the alert; a transcribed send leaves the flag alone. -/
theorem c7_dispatch_failure_amended_witness :
    (sendMessage wSendErr sHello).2 =
      [Effect.chatPost (jsTrim "hello"), Effect.alert "Connection Error"] ∧
    (sendMessageWithText wSendErr "hi" sLoad).1.isLoading = sLoad.isLoading :=
  ⟨by
    rw [(c7_dispatch_failure_amended wSendErr sHello sLoad "hi" (by decide) rfl
      rfl (by decide)).1]
    rfl,
   (c7_dispatch_failure_amended wSendErr sHello sLoad "hi" (by decide) rfl
      rfl (by decide)).2.2.2⟩

/-- Claim C8: a transcription timeout, an HTTP 404 and any other
transport failure are classified into their three distinct alerts, and
in every failure case the message list is unchanged (zero messages
appended) with `isLoading` cleared. -/
theorem c8_transcription_failure_classified (s : AppState) (sw : SendWorld)
    (uri : String) :
    convertSpeechToText ⟨TranscribeOutcome.timeout⟩ sw uri s =
      ({ s with isLoading := false },
       [Effect.transcribePost uri, Effect.alert "Timeout Error"]) ∧
    convertSpeechToText ⟨TranscribeOutcome.http404⟩ sw uri s =
      ({ s with isLoading := false },
       [Effect.transcribePost uri, Effect.alert "Backend Error"]) ∧
    convertSpeechToText ⟨TranscribeOutcome.otherError⟩ sw uri s =
      ({ s with isLoading := false },
       [Effect.transcribePost uri, Effect.alert "Conversion Error"]) :=
  ⟨rfl, rfl, rfl⟩

/-- Claim C9: every operation of the core either leaves the message
list unchanged or appends at its end — no existing message is edited,
removed or reordered. -/
theorem c9_messages_append_only (e : UIEvent) (s : AppState) (w : SendWorld)
    (tw : StopWorld) (text uri : String) :
    (∃ suf, (uiStep e s).1.messages = s.messages ++ suf) ∧
    (∃ suf, (sendMessageWithText w text s).1.messages = s.messages ++ suf) ∧
    (∃ suf, (stopVoiceRecording tw s).1.messages = s.messages ++ suf) ∧
    (∃ suf, (processVoiceRecording uri s).1.messages = s.messages ++ suf) := by
  refine ⟨?_, smwt_messages w text s, ⟨[], by simp [stop_messages]⟩,
    ⟨[], by simp [processVoiceRecording]⟩⟩
  cases e with
  | pressMicOrStop sw2 tw2 =>
    show ∃ suf, (toggleVoiceRecording sw2 tw2 s).1.messages = s.messages ++ suf
    unfold toggleVoiceRecording
    split
    · exact ⟨[], by simp [stop_messages]⟩
    · exact ⟨[], by simp [start_messages]⟩
  | pressCancel => exact ⟨[], by simp [uiStep, cancelRecordingUI]⟩
  | pressSend w2 => exact sendMessage_messages w2 s
  | chooseTranscribe w2 sw2 u => exact convert_messages w2 sw2 u s
  | choosePlay w2 u =>
    show ∃ suf, (playRecording w2 u s).1.messages = s.messages ++ suf
    exact ⟨[], by rw [(play_frame w2 u s).1]; simp⟩

/-- Claim C10: taking the cancel action while a recording object exists
only clears the recording flag; from then on the stale handle is kept
forever, no UI event ever stop-and-unloads it or starts a new capture,
and every subsequent start request is a no-op. -/
theorem c10_cancel_bricks_recording (hnd : Nat) (s : AppState)
    (hrec : s.recording = some hnd) (evs : List UIEvent) :
    (cancelRecordingUI s).1.recording = some hnd ∧
    (cancelRecordingUI s).1.isRecording = false ∧
    (cancelRecordingUI s).2 = [] ∧
    (runUI evs (cancelRecordingUI s).1).1.recording = some hnd ∧
    (∀ sw, startVoiceRecording sw (runUI evs (cancelRecordingUI s).1).1 =
      ((runUI evs (cancelRecordingUI s).1).1, [])) ∧
    (∀ g : Nat,
      Effect.prepareAndStart g ∉ (runUI evs (cancelRecordingUI s).1).2) ∧
    Effect.stopAndUnload hnd ∉ (runUI evs (cancelRecordingUI s).1).2 := by
  obtain ⟨b1, b2, b3⟩ := runUI_bricked hnd evs (cancelRecordingUI s).1 hrec rfl
  refine ⟨hrec, rfl, rfl, b1, ?_, fun g => (b3 g).1, (b3 hnd).2⟩
  intro sw
  exact start_noop_of_some sw _ (by simp [b1])

/-- Witness for the C10 theorem: after cancel, a mic press and a typed
send leave the stale handle in place with no release and no new start. -/
theorem c10_cancel_bricks_recording_witness :
    (runUI [UIEvent.pressMicOrStop wStartOk wTooShort, UIEvent.pressSend wSendOk]
      (cancelRecordingUI sRec0).1).1.recording = some 0 ∧
    Effect.stopAndUnload 0 ∉
      (runUI [UIEvent.pressMicOrStop wStartOk wTooShort, UIEvent.pressSend wSendOk]
        (cancelRecordingUI sRec0).1).2 :=
  ⟨(c10_cancel_bricks_recording 0 sRec0 rfl
      [UIEvent.pressMicOrStop wStartOk wTooShort,
       UIEvent.pressSend wSendOk]).2.2.2.1,
   (c10_cancel_bricks_recording 0 sRec0 rfl
      [UIEvent.pressMicOrStop wStartOk wTooShort,
       UIEvent.pressSend wSendOk]).2.2.2.2.2.2⟩

end CalendarAgent
